import Mathlib

/-!
Verification of the axmed-chat-widget conversation-state core.

The TypeScript source (`src/App.tsx`) is shallowly embedded below. Strings
are modelled as Lean `String` (a list of characters; the UTF-16 surrogate
pairs of JS are out of scope), machine timestamps as `Int` milliseconds,
and the browser/network environment (generated message ids, `Date.now()`,
the fetch outcome, `localStorage` contents) as explicit parameters.
-/

/-! ### JS string primitives used by the widget -/

/-- The character class recognised by JS `String.prototype.trim`
(ECMAScript WhiteSpace plus LineTerminator). -/
def isJsWhitespace (c : Char) : Bool :=
  c = ' ' || c = '\t' || c = '\n' || c = '\r' ||
  c.toNat = 11 || c.toNat = 12 || c.toNat = 160 || c.toNat = 65279 ||
  c.toNat = 5760 || (8192 ≤ c.toNat && c.toNat ≤ 8202) ||
  c.toNat = 8232 || c.toNat = 8233 || c.toNat = 8239 || c.toNat = 8287 ||
  c.toNat = 12288

/-- JS `input.trim()`: strip the whitespace class from both ends. -/
def jsTrim (s : String) : String :=
  String.mk (((s.data.dropWhile isJsWhitespace).reverse.dropWhile isJsWhitespace).reverse)

/-- JS `\w` (the word characters of the regex word-boundary `\b`). -/
def isWordChar (c : Char) : Bool := c.isAlphanum || c = '_'

/-- Case-insensitive prefix test over ASCII, as the `i` flag gives for the
literal characters of the script-tag regex. -/
def headMatchesCI : List Char → List Char → Bool
  | [], _ => true
  | _ :: _, [] => false
  | p :: ps, c :: cs => (c.toLower = p.toLower) && headMatchesCI ps cs

def scriptOpenChars : List Char := ['<', 's', 'c', 'r', 'i', 'p', 't']

def scriptCloseChars : List Char := ['<', '/', 's', 'c', 'r', 'i', 'p', 't', '>']

/-- Scan for the first case-insensitive occurrence of the closing tag and
return what follows it; `none` when there is no closing tag. -/
def dropThroughClose : List Char → Option (List Char)
  | [] => none
  | c :: cs =>
    if headMatchesCI scriptCloseChars (c :: cs) then some ((c :: cs).drop 9)
    else dropThroughClose cs

/-- A match, at the head of `s`, of the source regex
`<script\b[^<]*(?:(?!<\/script>)<[^<]*)*<\/script>` (flags `gi`): the literal
`<script` with a word boundary after it, then everything up to and including
the first case-insensitive `</script>`.  Returns the input after the match. -/
def scriptTagEnd (s : List Char) : Option (List Char) :=
  if headMatchesCI scriptOpenChars s then
    match s.drop 7 with
    | [] => none
    | c :: cs => if isWordChar c then none else dropThroughClose (c :: cs)
  else none

/-- Global replace of the script-tag regex by the empty string: left-to-right
scan; on a match, continue after it; otherwise keep the character. The fuel is
only a termination device (each step consumes at least one character). -/
def stripScriptsAux : Nat → List Char → List Char
  | 0, l => l
  | _ + 1, [] => []
  | fuel + 1, c :: cs =>
    match scriptTagEnd (c :: cs) with
    | some rest => stripScriptsAux fuel rest
    | none => c :: stripScriptsAux fuel cs

/-- `trimmed.replace(/<script\b[^<]*(?:(?!<\/script>)<[^<]*)*<\/script>/gi, '')`. -/
def stripScripts (s : String) : String :=
  String.mk (stripScriptsAux s.data.length s.data)

/-! ### Constants (source lines 200-207) -/

def MAX_MESSAGE_LENGTH : Nat := 500

def MIN_MESSAGE_LENGTH : Nat := 1

def API_TIMEOUT_MS : Int := 30000

/-- Min time between sends (and, independently, between feedback clicks). -/
def RATE_LIMIT_MS : Int := 2000

/-! ### validateInput (source lines 249-259) -/

structure ValidationResult where
  valid : Bool
  error : Option String
  sanitized : String
deriving Repr, DecidableEq

def validateInput (input : String) : ValidationResult :=
  let trimmed := jsTrim input
  if trimmed.length < MIN_MESSAGE_LENGTH then
    { valid := false, error := some "Message cannot be empty", sanitized := trimmed }
  else if trimmed.length > MAX_MESSAGE_LENGTH then
    { valid := false, error := some "Message too long (max 500 characters)", sanitized := trimmed }
  else
    { valid := true, error := none, sanitized := stripScripts trimmed }

/-! ### JS values and `JSON.parse`

The widget hands strings to the platform's `JSON.parse` (persistence load,
response-body decoding) and then works with the resulting dynamic value
untyped.  `Json` below is that dynamic-value universe; numbers keep their
source lexeme (the widget never computes with them, only tests truthiness).
`jsonParse` is the RFC 8259 grammar that `JSON.parse` accepts, returning
`none` exactly where `JSON.parse` throws. -/

inductive Json where
  | null
  | boolV (b : Bool)
  | num (lexeme : String)
  | str (s : String)
  | arr (elems : List Json)
  | obj (fields : List (String × Json))

/-- JSON's insignificant whitespace (space, tab, line feed, carriage return). -/
def jsonWS (c : Char) : Bool := c = ' ' || c = '\t' || c = '\n' || c = '\r'

def hexDigitVal (c : Char) : Option Nat :=
  if '0' ≤ c ∧ c ≤ '9' then some (c.toNat - '0'.toNat)
  else if 'a' ≤ c ∧ c ≤ 'f' then some (c.toNat - 'a'.toNat + 10)
  else if 'A' ≤ c ∧ c ≤ 'F' then some (c.toNat - 'A'.toNat + 10)
  else none

/-- Body of a JSON string literal, after the opening quote: plain characters
(at or above U+0020), the short escapes, and `\uXXXX`.  Returns the decoded
characters and the input after the closing quote. -/
def parseStrChars : Nat → List Char → Option (List Char × List Char)
  | 0, _ => none
  | _ + 1, [] => none
  | fuel + 1, c :: rest =>
    if c = '"' then some ([], rest)
    else if c = '\\' then
      match rest with
      | [] => none
      | e :: r =>
        let esc : Option (Char × List Char) :=
          if e = '"' then some ('"', r)
          else if e = '\\' then some ('\\', r)
          else if e = '/' then some ('/', r)
          else if e = 'b' then some (Char.ofNat 8, r)
          else if e = 'f' then some (Char.ofNat 12, r)
          else if e = 'n' then some ('\n', r)
          else if e = 'r' then some ('\r', r)
          else if e = 't' then some ('\t', r)
          else if e = 'u' then
            match r with
            | h1 :: h2 :: h3 :: h4 :: r2 =>
              match hexDigitVal h1, hexDigitVal h2, hexDigitVal h3, hexDigitVal h4 with
              | some a, some b, some c2, some d =>
                some (Char.ofNat (((a * 16 + b) * 16 + c2) * 16 + d), r2)
              | _, _, _, _ => none
            | _ => none
          else none
        match esc with
        | none => none
        | some (ch, r2) =>
          match parseStrChars fuel r2 with
          | none => none
          | some (cs, rest2) => some (ch :: cs, rest2)
    else if c.toNat < 32 then none
    else
      match parseStrChars fuel rest with
      | none => none
      | some (cs, rest2) => some (c :: cs, rest2)

def lexDigits (l : List Char) : List Char × List Char :=
  (l.takeWhile Char.isDigit, l.dropWhile Char.isDigit)

/-- A JSON number token `-?(0|[1-9][0-9]*)(\.[0-9]+)?([eE][+-]?[0-9]+)?`,
kept as its lexeme. -/
def parseNumber (l : List Char) : Option (Json × List Char) :=
  let signAndRest : List Char × List Char :=
    match l with
    | '-' :: r => (['-'], r)
    | _ => ([], l)
  match signAndRest.2 with
  | [] => none
  | c :: _ =>
    if !c.isDigit then none
    else
      let ipAndRest : List Char × List Char :=
        if c = '0' then (['0'], signAndRest.2.drop 1) else lexDigits signAndRest.2
      let fracRes : Option (List Char × List Char) :=
        match ipAndRest.2 with
        | '.' :: r =>
          let ds := lexDigits r
          if ds.1 = [] then none else some ('.' :: ds.1, ds.2)
        | _ => some ([], ipAndRest.2)
      match fracRes with
      | none => none
      | some (fp, r2) =>
        let expRes : Option (List Char × List Char) :=
          match r2 with
          | e :: r =>
            if e = 'e' || e = 'E' then
              let sgnAndRest : List Char × List Char :=
                match r with
                | '+' :: r3 => (['+'], r3)
                | '-' :: r3 => (['-'], r3)
                | _ => ([], r)
              let ds := lexDigits sgnAndRest.2
              if ds.1 = [] then none else some (e :: (sgnAndRest.1 ++ ds.1), ds.2)
            else some ([], r2)
          | [] => some ([], [])
        match expRes with
        | none => none
        | some (ep, r5) =>
          some (Json.num (String.mk (signAndRest.1 ++ ipAndRest.1 ++ fp ++ ep)), r5)

def headMatches : List Char → List Char → Bool
  | [], _ => true
  | _ :: _, [] => false
  | p :: ps, c :: cs => p = c && headMatches ps cs

mutual

/-- One JSON value, leading whitespace allowed; returns the remaining input. -/
def parseValue : Nat → List Char → Option (Json × List Char)
  | 0, _ => none
  | fuel + 1, input =>
    match input.dropWhile jsonWS with
    | [] => none
    | c :: rest =>
      if c = '\x7b' then parseObjBody fuel (rest.dropWhile jsonWS)
      else if c = '[' then parseArrBody fuel (rest.dropWhile jsonWS)
      else if c = '"' then
        match parseStrChars (rest.length + 1) rest with
        | some (cs, r) => some (Json.str (String.mk cs), r)
        | none => none
      else if c = 't' then
        if headMatches ['r', 'u', 'e'] rest then some (Json.boolV true, rest.drop 3) else none
      else if c = 'f' then
        if headMatches ['a', 'l', 's', 'e'] rest then some (Json.boolV false, rest.drop 4) else none
      else if c = 'n' then
        if headMatches ['u', 'l', 'l'] rest then some (Json.null, rest.drop 3) else none
      else if c = '-' || c.isDigit then parseNumber (c :: rest)
      else none

/-- After `[` (whitespace skipped): empty array or the element list. -/
def parseArrBody : Nat → List Char → Option (Json × List Char)
  | 0, _ => none
  | fuel + 1, l =>
    match l with
    | ']' :: rest => some (Json.arr [], rest)
    | _ =>
      match parseElems fuel l with
      | some (vs, r) => some (Json.arr vs, r)
      | none => none

/-- Comma-separated elements up to the closing `]`. -/
def parseElems : Nat → List Char → Option (List Json × List Char)
  | 0, _ => none
  | fuel + 1, l =>
    match parseValue fuel l with
    | none => none
    | some (v, r) =>
      match r.dropWhile jsonWS with
      | ',' :: r2 =>
        match parseElems fuel r2 with
        | some (vs, r3) => some (v :: vs, r3)
        | none => none
      | ']' :: r2 => some ([v], r2)
      | _ => none

/-- After `{` (whitespace skipped): empty object or the member list. -/
def parseObjBody : Nat → List Char → Option (Json × List Char)
  | 0, _ => none
  | fuel + 1, l =>
    match l with
    | '\x7d' :: rest => some (Json.obj [], rest)
    | _ =>
      match parseFields fuel l with
      | some (fs, r) => some (Json.obj fs, r)
      | none => none

/-- Comma-separated `"key": value` members up to the closing `}`. -/
def parseFields : Nat → List Char → Option (List (String × Json) × List Char)
  | 0, _ => none
  | fuel + 1, l =>
    match l with
    | '"' :: rest =>
      match parseStrChars (rest.length + 1) rest with
      | none => none
      | some (key, r) =>
        match r.dropWhile jsonWS with
        | ':' :: r2 =>
          match parseValue fuel r2 with
          | none => none
          | some (v, r3) =>
            match r3.dropWhile jsonWS with
            | ',' :: r4 =>
              match parseFields fuel (r4.dropWhile jsonWS) with
              | some (fs, r5) => some ((String.mk key, v) :: fs, r5)
              | none => none
            | '\x7d' :: r4 => some ([(String.mk key, v)], r4)
            | _ => none
        | _ => none
    | _ => none

end

/-- `JSON.parse`: one value spanning the whole input (surrounding whitespace
allowed); `none` where `JSON.parse` throws.  The fuel is a termination device
only; four units per character is more than any parse can consume. -/
def jsonParse (s : String) : Option Json :=
  match parseValue (4 * s.data.length + 4) s.data with
  | none => none
  | some (v, rest) => if rest.dropWhile jsonWS = [] then some v else none

def Json.isArr : Json → Bool
  | .arr _ => true
  | _ => false

def Json.isObj : Json → Bool
  | .obj _ => true
  | _ => false

/-! ### JS dynamic-value operations: property access and truthiness -/

/-- Own-property lookup on the member list produced by `JSON.parse`
(duplicate keys: the last occurrence wins, as in `JSON.parse`). -/
def lookupField : List (String × Json) → String → Option Json
  | [], _ => none
  | (k, v) :: rest, key =>
    match lookupField rest key with
    | some r => some r
    | none => if k = key then some v else none

/-- JS property read `v[key]` on a parsed JSON value, for keys (such as
`output`, `text`, `message`) that no primitive prototype defines: `undefined`
(here `none`) unless `v` is an object with that member. -/
def jsField : Json → String → Option Json
  | Json.obj fields, key => lookupField fields key
  | _, _ => none

def digitsToNat (ds : List Char) : Nat :=
  ds.foldl (fun a c => a * 10 + (c.toNat - '0'.toNat)) 0

/-- Whether a JSON number lexeme denotes a value that JS converts to the
double `0` (the only falsy number a parsed field can be): either every
mantissa digit is `0`, or the magnitude `M * 10 ^ E` is at most
`2 ^ (-1075)` — the halfway point below the smallest subnormal — which
rounds to zero under round-to-nearest, ties-to-even (so underflowing
lexemes such as `1e-400` are falsy). -/
def numLexemeIsZero (lex : String) : Bool :=
  let l1 : List Char :=
    match lex.data with
    | '-' :: r => r
    | l => l
  let ip := l1.takeWhile Char.isDigit
  let rest := l1.dropWhile Char.isDigit
  let fp : List Char :=
    match rest with
    | '.' :: r => r.takeWhile Char.isDigit
    | _ => []
  let rest2 : List Char :=
    match rest with
    | '.' :: r => r.dropWhile Char.isDigit
    | _ => rest
  let expVal : Int :=
    match rest2 with
    | 'e' :: r | 'E' :: r =>
      (match r with
       | '-' :: ds => -(digitsToNat (ds.takeWhile Char.isDigit) : Int)
       | '+' :: ds => (digitsToNat (ds.takeWhile Char.isDigit) : Int)
       | ds => (digitsToNat (ds.takeWhile Char.isDigit) : Int))
    | _ => 0
  let M := digitsToNat (ip ++ fp)
  let E : Int := expVal - (fp.length : Int)
  if M = 0 then true
  else if 0 ≤ E then false
  else decide (M * 2 ^ 1075 ≤ 10 ^ (-E).toNat)

/-- JS truthiness of a parsed JSON value. -/
def truthy : Json → Bool
  | Json.null => false
  | Json.boolV b => b
  | Json.num lex => !numLexemeIsZero lex
  | Json.str s => s != ""
  | Json.arr _ => true
  | Json.obj _ => true

/-- Truthiness of `data[key]` (with `undefined` falsy). -/
def truthyField (data : Json) (key : String) : Bool :=
  match jsField data key with
  | some v => truthy v
  | none => false

/-- `data.output || data.text || data.message || 'Sorry, I could not process
that request.'` (source line 493).  When `data` is JS `null` (a 2xx body
`"null"`), the very first property access `data.output` throws a TypeError —
modelled as `none` and turned into the failure notice by the caller's catch
block.  On any other parsed value, JS `||` takes the first *truthy*
operand. -/
def extractReply : Json → Option Json
  | Json.null => none
  | data =>
    some (if truthyField data "output" then (jsField data "output").getD Json.null
      else if truthyField data "text" then (jsField data "text").getD Json.null
      else if truthyField data "message" then (jsField data "message").getD Json.null
      else Json.str "Sorry, I could not process that request.")

/-! ### JS `parseInt(v, 10)` -/

/-- `parseInt(s, 10)`: skip leading whitespace, optional sign, then the
longest leading run of decimal digits (trailing garbage ignored); `none`
models the `NaN` result when no digit is found. -/
def jsParseInt10 (s : String) : Option Int :=
  let l := s.data.dropWhile isJsWhitespace
  let signAndRest : Bool × List Char :=
    match l with
    | '-' :: r => (true, r)
    | '+' :: r => (false, r)
    | _ => (false, l)
  let ds := signAndRest.2.takeWhile Char.isDigit
  if ds = [] then none
  else if signAndRest.1 then some (-(digitsToNat ds : Int))
  else some ((digitsToNat ds : Int))

/-! ### getConfig (source lines 210-246) -/

/-- The runtime value of the `borderRadius` config field: the query parameter
is absent/empty (`null` in the source), or `parseInt` failed (JS `NaN`), or an
integer. -/
inductive JsNumberOrNull where
  | null
  | nan
  | int (n : Int)
deriving Repr, DecidableEq

inductive SuggestionsSetting where
  | disabled
  | list (qs : List String)
deriving Repr, DecidableEq

def DEFAULT_SUGGESTIONS : List String :=
  ["What is Axmed?", "Who can buy on Axmed?", "How does ordering work?",
   "How do offers work?", "How is quality ensured?"]

def DEFAULT_ALLOWED_ORIGINS : List String :=
  ["https://axmed.com", "https://ax-derrick.github.io"]

/-- `v.split(',').map(s => s.trim()).filter(Boolean)`. -/
def splitTrimFilter (v : String) : List String :=
  ((v.splitOn ",").map jsTrim).filter (fun x => x ≠ "")

/-- `params.get(k) || d` (empty string is falsy). -/
def paramOrDefault (p : Option String) (d : String) : String :=
  match p with
  | some v => if v = "" then d else v
  | none => d

/-- `params.get(k) || null`. -/
def paramOrNull (p : Option String) : Option String :=
  match p with
  | some v => if v = "" then none else some v
  | none => none

structure Config where
  webhookUrl : String
  title : String
  greeting : String
  subtitle : String
  placeholder : String
  suggestions : SuggestionsSetting
  primaryColor : Option String
  fontFamily : Option String
  borderRadius : JsNumberOrNull
  logoUrl : Option String
  autoOpen : Bool
  showCloseButton : Bool
  disclaimerText : Option String
  allowedOrigins : List String

/-- `getConfig`, with the page's query string abstracted as the
`URLSearchParams.get` function and the build-time `VITE_WEBHOOK_URL`
environment value passed explicitly (empty string = unset). -/
def getConfig (params : String → Option String) (envWebhookUrl : String) : Config :=
  let suggestions : SuggestionsSetting :=
    match params "suggestions" with
    | some "false" => SuggestionsSetting.disabled
    | some v =>
      if v = "" then SuggestionsSetting.list DEFAULT_SUGGESTIONS
      else SuggestionsSetting.list (splitTrimFilter v)
    | none => SuggestionsSetting.list DEFAULT_SUGGESTIONS
  let allowedOrigins : List String :=
    match params "allowedOrigins" with
    | some v => if v = "" then DEFAULT_ALLOWED_ORIGINS else splitTrimFilter v
    | none => DEFAULT_ALLOWED_ORIGINS
  { webhookUrl := paramOrDefault (params "webhookUrl") envWebhookUrl
    title := paramOrDefault (params "title") "Ask Axmed"
    greeting := paramOrDefault (params "greeting") "Hi there"
    subtitle := paramOrDefault (params "subtitle") "What would you like\nto dig deeper on today?"
    placeholder := paramOrDefault (params "placeholder") "Type your message..."
    suggestions := suggestions
    primaryColor := paramOrNull (params "primaryColor")
    fontFamily := paramOrNull (params "fontFamily")
    borderRadius :=
      match params "borderRadius" with
      | none => JsNumberOrNull.null
      | some v =>
        if v = "" then JsNumberOrNull.null
        else
          match jsParseInt10 v with
          | none => JsNumberOrNull.nan
          | some n => JsNumberOrNull.int n
    logoUrl := paramOrNull (params "logoUrl")
    autoOpen := params "autoOpen" == some "true"
    showCloseButton := params "showCloseButton" != some "false"
    disclaimerText := paramOrNull (params "disclaimerText")
    allowedOrigins := allowedOrigins }

/-! ### Persistence loads (source lines 283-303) -/

/-- `loadMessages`, with the `localStorage.getItem(STORAGE_KEY_MESSAGES)`
result passed explicitly (`none` = absent).  `stored ? JSON.parse(stored) :
[]` hands back whatever value the stored JSON denotes; the surrounding
`try/catch` turns a parse throw into `[]`, and a falsy (`null` or empty)
entry short-circuits to `[]`. -/
def loadMessages (stored : Option String) : Json :=
  match stored with
  | none => Json.arr []
  | some s =>
    if s = "" then Json.arr []
    else
      match jsonParse s with
      | some v => v
      | none => Json.arr []

/-- `loadFeedback`, same shape as `loadMessages` with `{}` as the fallback. -/
def loadFeedback (stored : Option String) : Json :=
  match stored with
  | none => Json.obj []
  | some s =>
    if s = "" then Json.obj []
    else
      match jsonParse s with
      | some v => v
      | none => Json.obj []

/-! ### Data model (source lines 272-280) -/

inductive Sender where
  | user
  | ai
deriving Repr, DecidableEq

inductive FeedbackType where
  | up
  | down
deriving Repr, DecidableEq

/-- `ChatMessage`.  `content` is a dynamic JS value: the code stores strings
for its own messages but whatever `JSON.parse` field it picked for replies.
The optional `isSystem` flag is only ever truth-tested, so it is a `Bool`
with absent = `false`. -/
structure ChatMessage where
  id : String
  content : Json
  sender : Sender
  timestamp : String
  replyTo : Option String := none
  isSystem : Bool := false
  failedInput : Option String := none

/-- The component state touched by the embedded handlers: the `messages` and
`feedback` React state, the input field, the loading latch, and the two
rate-limiter refs (`lastSendRef`, `lastFeedbackRef`). -/
structure AppState where
  messages : List ChatMessage
  inputValue : String
  isLoading : Bool
  feedback : List (String × FeedbackType)
  lastSend : Int
  lastFeedback : Int

/-! ### Rate limiter (source lines 425-427 and 552-554) -/

/-- The cooldown gate both handlers open with: `const now = Date.now(); if
(now - lastRef.current < cooldownMs) return; lastRef.current = now;` — deny
leaves the slot untouched, allow stamps it with `now`. -/
def tryAcquire (last now cooldownMs : Int) : Bool × Int :=
  if now - last < cooldownMs then (false, last) else (true, now)

/-! ### Outbound requests -/

/-- A webhook POST issued by the widget, with its JSON body fields. -/
inductive NetRequest where
  | sendMsg (url sessionId messageId chatInput : String)
  | feedback (url sessionId messageId : String) (userMessageId : Option String)
      (feedbackType : FeedbackType)

/-- How the send-path `fetch` resolves: a response (`response.ok`, body
text), a network throw, or the 30-second `AbortController` timeout (a
`DOMException` named `AbortError`). -/
inductive FetchOutcome where
  | response (ok : Bool) (bodyText : String)
  | networkFailure
  | timeoutAbort

/-- The per-call environment of `sendMessage`: `Date.now()` at entry, the
persisted session id, the generated id/timestamp for each message the call
may create, all supplied by the browser. -/
structure SendEnv where
  now : Int
  sessionId : String
  userMsgId : String
  userMsgTs : String
  respMsgId : String
  respMsgTs : String
  cfgErrMsgId : String
  cfgErrMsgTs : String

/-- The configuration-error notice (source lines 431-437). -/
def configErrorMessage (env : SendEnv) : ChatMessage :=
  { id := env.cfgErrMsgId,
    content := Json.str "Chat is not configured. No webhook URL found.",
    sender := Sender.ai, timestamp := env.cfgErrMsgTs, isSystem := true }

/-- The failure notice appended in the catch block (source lines 504-515);
the timeout and generic variants differ only in the copy. -/
def failureNotice (env : SendEnv) (sanitized : String) (isTimeout : Bool) : ChatMessage :=
  { id := env.respMsgId,
    content := Json.str (if isTimeout then "The request timed out."
                         else "Sorry, something went wrong."),
    sender := Sender.ai, timestamp := env.respMsgTs, isSystem := true,
    failedInput := some sanitized }

/-! ### sendMessage (source lines 423-519) -/

/-- `sendMessage`, as the transition it performs on `AppState` together with
the webhook POSTs it issues.  The `await` suspensions collapse: the widget is
single-threaded and this call is the only writer while it runs. -/
def sendMessage (cfg : Config) (env : SendEnv) (outcome : FetchOutcome)
    (st : AppState) (content : String) : AppState × List NetRequest :=
  if st.isLoading then (st, [])
  else
    let acq := tryAcquire st.lastSend env.now RATE_LIMIT_MS
    if acq.1 = false then (st, [])
    else
      let st1 : AppState := { st with lastSend := acq.2 }
      if cfg.webhookUrl = "" then
        ({ st1 with messages := st1.messages ++ [configErrorMessage env] }, [])
      else
        let validation := validateInput content
        if validation.valid = false then (st1, [])
        else
          let userMessage : ChatMessage :=
            { id := env.userMsgId, content := Json.str validation.sanitized,
              sender := Sender.user, timestamp := env.userMsgTs }
          let st2 : AppState :=
            { st1 with
              isLoading := true,
              messages := st1.messages ++ [userMessage],
              inputValue := "" }
          let req := NetRequest.sendMsg cfg.webhookUrl env.sessionId env.userMsgId
            validation.sanitized
          match outcome with
          | FetchOutcome.response ok bodyText =>
            if ok = false then
              ({ st2 with
                 messages := st2.messages ++ [failureNotice env validation.sanitized false],
                 isLoading := false }, [req])
            else
              match jsonParse bodyText with
              | none =>
                ({ st2 with
                   messages := st2.messages ++ [failureNotice env validation.sanitized false],
                   isLoading := false }, [req])
              | some data =>
                match extractReply data with
                | none =>
                  ({ st2 with
                     messages := st2.messages ++ [failureNotice env validation.sanitized false],
                     isLoading := false }, [req])
                | some reply =>
                  let aiMessage : ChatMessage :=
                    { id := env.respMsgId, content := reply,
                      sender := Sender.ai, timestamp := env.respMsgTs,
                      replyTo := some env.userMsgId }
                  ({ st2 with
                     messages := st2.messages ++ [aiMessage],
                     isLoading := false }, [req])
          | FetchOutcome.networkFailure =>
            ({ st2 with
               messages := st2.messages ++ [failureNotice env validation.sanitized false],
               isLoading := false }, [req])
          | FetchOutcome.timeoutAbort =>
            ({ st2 with
               messages := st2.messages ++ [failureNotice env validation.sanitized true],
               isLoading := false }, [req])

/-! ### handleRetry (source lines 534-543) -/

/-- JS `Array.prototype.findIndex`: index of the first match, `-1` if none. -/
def jsFindIndex (p : ChatMessage → Bool) : List ChatMessage → Int
  | [] => -1
  | m :: rest =>
    if p m then 0
    else
      let r := jsFindIndex p rest
      if r < 0 then -1 else r + 1

/-- The transcript mutation inside `handleRetry`: find the error notice by
id; if `errorIdx < 1` (not found, or first element) return the transcript
unchanged; otherwise drop the element right before the notice and the notice
itself (`[...prev.slice(0, errorIdx - 1), ...prev.slice(errorIdx + 1)]`). -/
def removeRetryPair (prev : List ChatMessage) (errorMsgId : String) : List ChatMessage :=
  let errorIdx := jsFindIndex (fun m => m.id == errorMsgId) prev
  if errorIdx < 1 then prev
  else prev.take (errorIdx.toNat - 1) ++ prev.drop (errorIdx.toNat + 1)

/-- `handleRetry`: remove the failed pair, then re-run the full send
pipeline on the original input. -/
def handleRetry (cfg : Config) (env : SendEnv) (outcome : FetchOutcome)
    (st : AppState) (errorMsgId originalInput : String) : AppState × List NetRequest :=
  sendMessage cfg env outcome
    { st with messages := removeRetryPair st.messages errorMsgId } originalInput

/-! ### handleFeedback (source lines 551-595) -/

structure FeedbackEnv where
  now : Int
  sessionId : String
  supportMsgId : String
  supportMsgTs : String

/-- The fixed support follow-up appended on a thumbs-down (source lines
586-592). -/
def supportMessage (env : FeedbackEnv) : ChatMessage :=
  { id := env.supportMsgId,
    content := Json.str "I\x27m sorry this wasn\x27t helpful. Please reach out to our support team at **support@axmed.com** for further assistance.",
    sender := Sender.ai, timestamp := env.supportMsgTs, isSystem := true }

/-- `{ ...feedback, [messageId]: type }`: replace in place if the key
exists, else append. -/
def setFeedbackEntry : List (String × FeedbackType) → String → FeedbackType →
    List (String × FeedbackType)
  | [], key, v => [(key, v)]
  | (k, w) :: rest, key, v =>
    if k = key then (key, v) :: rest else (k, w) :: setFeedbackEntry rest key v

def lookupFeedback : List (String × FeedbackType) → String → Option FeedbackType
  | [], _ => none
  | (k, v) :: rest, key => if k = key then some v else lookupFeedback rest key

/-- `handleFeedback`.  `fetchOk` is how the best-effort webhook POST
resolves; the surrounding `try { await fetch(...) } catch \x7b\x7d` has an empty
catch, so the outcome can influence nothing. -/
def handleFeedback (cfg : Config) (env : FeedbackEnv) (_fetchOk : Bool)
    (st : AppState) (messageId : String) (ftype : FeedbackType) :
    AppState × List NetRequest :=
  let acq := tryAcquire st.lastFeedback env.now RATE_LIMIT_MS
  if acq.1 = false then (st, [])
  else
    let st1 : AppState := { st with lastFeedback := acq.2 }
    let newFeedback := setFeedbackEntry st1.feedback messageId ftype
    let st2 : AppState := { st1 with feedback := newFeedback }
    let aiMsg := st2.messages.find? (fun m => m.id == messageId)
    let userMessageId : Option String :=
      match aiMsg with
      | some m =>
        match m.replyTo with
        | some r => if r = "" then none else some r
        | none => none
      | none => none
    let req := NetRequest.feedback cfg.webhookUrl env.sessionId messageId userMessageId ftype
    if ftype = FeedbackType.down then
      ({ st2 with messages := st2.messages ++ [supportMessage env] }, [req])
    else
      (st2, [req])

/-! ### Concrete fixtures used by witnesses and counterexamples -/

def wU : ChatMessage :=
  { id := "u1", content := Json.str "Hello", sender := Sender.user, timestamp := "t1" }

def wErr : ChatMessage :=
  { id := "e1", content := Json.str "Sorry, something went wrong.", sender := Sender.ai,
    timestamp := "t2", isSystem := true, failedInput := some "Hello" }

def wEnvB : SendEnv :=
  { now := 100, sessionId := "s", userMsgId := "u2", userMsgTs := "t3",
    respMsgId := "r2", respMsgTs := "t4", cfgErrMsgId := "c2", cfgErrMsgTs := "t5" }

def wStateBusy : AppState :=
  { messages := [wU, wErr], inputValue := "", isLoading := true, feedback := [],
    lastSend := 0, lastFeedback := 0 }

def wCfg : Config :=
  { webhookUrl := "https://example.test/hook", title := "Ask Axmed", greeting := "Hi there",
    subtitle := "s", placeholder := "p", suggestions := SuggestionsSetting.list DEFAULT_SUGGESTIONS,
    primaryColor := none, fontFamily := none, borderRadius := JsNumberOrNull.null,
    logoUrl := none, autoOpen := false, showCloseButton := true, disclaimerText := none,
    allowedOrigins := DEFAULT_ALLOWED_ORIGINS }

def wEnvS : SendEnv :=
  { now := 5000, sessionId := "sess", userMsgId := "u9", userMsgTs := "ts1",
    respMsgId := "r9", respMsgTs := "ts2", cfgErrMsgId := "c9", cfgErrMsgTs := "ts0" }

def wStateIdle : AppState :=
  { messages := [], inputValue := "Hello", isLoading := false, feedback := [],
    lastSend := 0, lastFeedback := 0 }

def wCfgNoUrl : Config := { wCfg with webhookUrl := "" }

def wEnvF : FeedbackEnv :=
  { now := 9000, sessionId := "sess", supportMsgId := "f1", supportMsgTs := "t9" }

/-! ### Sanity checks (concrete evaluations of the embedded functions) -/

example : validateInput "hello" = { valid := true, error := none, sanitized := "hello" } := by decide

example : validateInput "  hello  " = { valid := true, error := none, sanitized := "hello" } := by decide

example : stripScripts "hello <script>alert(1)</script> world" = "hello  world" := by decide

example : validateInput "   " = { valid := false, error := some "Message cannot be empty", sanitized := "" } := by decide

example : validateInput " hi <SCRIPT>x</script> there " =
    { valid := true, error := none, sanitized := "hi  there" } := by decide

example : jsonParse "5" = some (Json.num "5") := rfl

example : jsonParse " \x7b\"output\": \"Hi!\"\x7d " =
    some (Json.obj [("output", Json.str "Hi!")]) := rfl

example : jsonParse "not json" = none := rfl

example : jsonParse "[1, true, \"a\"]" =
    some (Json.arr [Json.num "1", Json.boolV true, Json.str "a"]) := rfl

example : jsonParse "\x7b\"a\":1" = none := rfl

example : jsonParse "" = none := rfl

example : extractReply (Json.obj [("text", Json.str "hi")]) = some (Json.str "hi") := rfl

example : extractReply (Json.obj [("output", Json.str ""), ("text", Json.str "hi")]) =
    some (Json.str "hi") := rfl

example : extractReply (Json.str "bare") =
    some (Json.str "Sorry, I could not process that request.") := rfl

example : jsonParse "null" = some Json.null := rfl

example : extractReply Json.null = none := rfl

set_option maxRecDepth 8192 in
example : numLexemeIsZero "1e-400" = true := by decide

set_option maxRecDepth 8192 in
example : numLexemeIsZero "1e-323" = false := by decide

example : numLexemeIsZero "-0.00" = true := by decide

example : jsParseInt10 "12" = some 12 := rfl
example : jsParseInt10 " -8px" = some (-8) := rfl
example : jsParseInt10 "abc" = none := rfl
example : jsParseInt10 "0x10" = some 0 := rfl

/-! ### Helper lemmas -/

/-- On every parsed value other than JS `null`, the property accesses do not
throw and `extractReply` is the plain `||` chain. -/
theorem extractReply_not_null (d : Json) (hd : d ≠ Json.null) :
    extractReply d =
      some (if truthyField d "output" then (jsField d "output").getD Json.null
        else if truthyField d "text" then (jsField d "text").getD Json.null
        else if truthyField d "message" then (jsField d "message").getD Json.null
        else Json.str "Sorry, I could not process that request.") := by
  cases d with
  | null => exact absurd rfl hd
  | boolV b => rfl
  | num lex => rfl
  | str s => rfl
  | arr es => rfl
  | obj fs => rfl

theorem tryAcquire_allow (last now cd : Int) (h : cd ≤ now - last) :
    tryAcquire last now cd = (true, now) := by
  unfold tryAcquire
  rw [if_neg (by omega)]

theorem tryAcquire_deny (last now cd : Int) (h : now - last < cd) :
    tryAcquire last now cd = (false, last) := by
  unfold tryAcquire
  rw [if_pos h]

theorem lookupFeedback_set (m : List (String × FeedbackType)) (k : String) (v : FeedbackType) :
    lookupFeedback (setFeedbackEntry m k v) k = some v := by
  induction m with
  | nil => simp [setFeedbackEntry, lookupFeedback]
  | cons hd tl ih =>
    obtain ⟨k2, w⟩ := hd
    by_cases hk : k2 = k
    · simp [setFeedbackEntry, hk, lookupFeedback]
    · simp [setFeedbackEntry, hk, lookupFeedback, ih]

theorem removeRetryPair_at (prev : List ChatMessage) (errorMsgId : String) (i : Nat)
    (h : jsFindIndex (fun m => m.id == errorMsgId) prev = (i : Int) + 1) :
    removeRetryPair prev errorMsgId = prev.take i ++ prev.drop (i + 2) := by
  simp only [removeRetryPair, h]
  rw [if_neg (by omega)]
  have h1 : ((i : Int) + 1).toNat - 1 = i := by omega
  have h2 : ((i : Int) + 1).toNat + 1 = i + 2 := by omega
  rw [h1, h2]

/-! ### Claim C1 -/

/-- C1: for every input whose trimmed length lies in [1, 500], `validateInput`
returns `valid = true` with `sanitized` equal to the trimmed string with every
(case-insensitive, shortest-closing-tag) `<script>...</script>` fragment
removed; for trimmed length 0 it rejects with "Message cannot be empty"; for
trimmed length above 500 it rejects with "Message too long (max 500
characters)". -/
theorem validateInput_cases (s : String) :
    (1 ≤ (jsTrim s).length → (jsTrim s).length ≤ 500 →
      validateInput s =
        { valid := true, error := none, sanitized := stripScripts (jsTrim s) }) ∧
    ((jsTrim s).length = 0 →
      validateInput s =
        { valid := false, error := some "Message cannot be empty", sanitized := jsTrim s }) ∧
    (500 < (jsTrim s).length →
      validateInput s =
        { valid := false, error := some "Message too long (max 500 characters)",
          sanitized := jsTrim s }) := by
  unfold validateInput MIN_MESSAGE_LENGTH MAX_MESSAGE_LENGTH
  refine ⟨fun h1 h2 => ?_, fun h0 => ?_, fun hl => ?_⟩
  · rw [if_neg (by omega), if_neg (by omega)]
  · rw [if_pos (by omega)]
  · rw [if_neg (by omega), if_pos (by omega)]

/-- C1 witness: the three hypotheses are dischargeable; the in-range case at a
concrete input containing a script fragment. -/
theorem validateInput_cases_witness :
    validateInput " hi <SCRIPT>x</script> there " =
      { valid := true, error := none,
        sanitized := stripScripts (jsTrim " hi <SCRIPT>x</script> there ") } :=
  (validateInput_cases " hi <SCRIPT>x</script> there ").1 (by decide) (by decide)

/-! ### Claim C2 -/

/-- C2: the transcript mutation of `handleRetry` locates the error notice by
id; when it is not the first element it removes the immediately preceding
element and the notice itself; when the id is first or not found the
transcript is unchanged; and on `[U, ERR]` with ERR's id (ids distinct) the
result is the empty transcript. -/
theorem removeRetryPair_spec (prev : List ChatMessage) (errorMsgId : String) :
    (jsFindIndex (fun m => m.id == errorMsgId) prev = -1 →
      removeRetryPair prev errorMsgId = prev) ∧
    (jsFindIndex (fun m => m.id == errorMsgId) prev = 0 →
      removeRetryPair prev errorMsgId = prev) ∧
    (∀ i : Nat, jsFindIndex (fun m => m.id == errorMsgId) prev = (i : Int) + 1 →
      removeRetryPair prev errorMsgId = prev.take i ++ prev.drop (i + 2)) ∧
    (∀ u e : ChatMessage, u.id ≠ e.id → removeRetryPair [u, e] e.id = []) := by
  refine ⟨fun h => ?_, fun h => ?_, removeRetryPair_at prev errorMsgId, fun u e hne => ?_⟩
  · simp only [removeRetryPair, h]
    norm_num
  · simp only [removeRetryPair, h]
    norm_num
  · have hu : (u.id == e.id) = false := by simpa using hne
    simp [removeRetryPair, jsFindIndex, hu]

/-- C2 witness: the `[U, ERR]` case at concrete messages. -/
theorem removeRetryPair_spec_witness : removeRetryPair [wU, wErr] "e1" = [] := by
  have h := (removeRetryPair_spec [wU, wErr] "e1").2.2.2 wU wErr (by decide)
  exact h

/-! ### Claim C3 -/

/-- C3: on every send failure — non-2xx response, network error, JSON parse
error of the body, or the 30-second timeout abort — exactly one system `ai`
message is appended after the optimistic user message, carrying
`failedInput` equal to the sanitized input; its copy is "The request timed
out." for the timeout abort and "Sorry, something went wrong." otherwise,
and the failure kinds differ in nothing but that copy. -/
theorem sendMessage_failure_spec (cfg : Config) (env : SendEnv) (st : AppState)
    (content : String)
    (hload : st.isLoading = false)
    (hgate : RATE_LIMIT_MS ≤ env.now - st.lastSend)
    (hurl : cfg.webhookUrl ≠ "")
    (hvalid : (validateInput content).valid = true) :
    (∀ body, sendMessage cfg env (FetchOutcome.response false body) st content =
      ({ st with
         lastSend := env.now, isLoading := false, inputValue := "",
         messages := st.messages ++
           [{ id := env.userMsgId, content := Json.str (validateInput content).sanitized,
              sender := Sender.user, timestamp := env.userMsgTs },
            failureNotice env (validateInput content).sanitized false] },
       [NetRequest.sendMsg cfg.webhookUrl env.sessionId env.userMsgId
          (validateInput content).sanitized])) ∧
    (∀ body, jsonParse body = none →
      sendMessage cfg env (FetchOutcome.response true body) st content =
      ({ st with
         lastSend := env.now, isLoading := false, inputValue := "",
         messages := st.messages ++
           [{ id := env.userMsgId, content := Json.str (validateInput content).sanitized,
              sender := Sender.user, timestamp := env.userMsgTs },
            failureNotice env (validateInput content).sanitized false] },
       [NetRequest.sendMsg cfg.webhookUrl env.sessionId env.userMsgId
          (validateInput content).sanitized])) ∧
    (sendMessage cfg env FetchOutcome.networkFailure st content =
      ({ st with
         lastSend := env.now, isLoading := false, inputValue := "",
         messages := st.messages ++
           [{ id := env.userMsgId, content := Json.str (validateInput content).sanitized,
              sender := Sender.user, timestamp := env.userMsgTs },
            failureNotice env (validateInput content).sanitized false] },
       [NetRequest.sendMsg cfg.webhookUrl env.sessionId env.userMsgId
          (validateInput content).sanitized])) ∧
    (sendMessage cfg env FetchOutcome.timeoutAbort st content =
      ({ st with
         lastSend := env.now, isLoading := false, inputValue := "",
         messages := st.messages ++
           [{ id := env.userMsgId, content := Json.str (validateInput content).sanitized,
              sender := Sender.user, timestamp := env.userMsgTs },
            failureNotice env (validateInput content).sanitized true] },
       [NetRequest.sendMsg cfg.webhookUrl env.sessionId env.userMsgId
          (validateInput content).sanitized])) := by
  have hacq := tryAcquire_allow st.lastSend env.now RATE_LIMIT_MS hgate
  refine ⟨fun body => ?_, fun body hparse => ?_, ?_, ?_⟩
  · simp [sendMessage, hload, hacq, hurl, hvalid]
  · simp [sendMessage, hload, hacq, hurl, hvalid, hparse]
  · simp [sendMessage, hload, hacq, hurl, hvalid]
  · simp [sendMessage, hload, hacq, hurl, hvalid]

/-- C3 witness: the timeout case at concrete inputs. -/
theorem sendMessage_failure_spec_witness :
    sendMessage wCfg wEnvS FetchOutcome.timeoutAbort wStateIdle "Hello" =
      ({ wStateIdle with
         lastSend := wEnvS.now, isLoading := false, inputValue := "",
         messages := wStateIdle.messages ++
           [{ id := wEnvS.userMsgId, content := Json.str (validateInput "Hello").sanitized,
              sender := Sender.user, timestamp := wEnvS.userMsgTs },
            failureNotice wEnvS (validateInput "Hello").sanitized true] },
       [NetRequest.sendMsg wCfg.webhookUrl wEnvS.sessionId wEnvS.userMsgId
          (validateInput "Hello").sanitized]) :=
  (sendMessage_failure_spec wCfg wEnvS wStateIdle "Hello" rfl (by decide) (by decide)
    rfl).2.2.2

/-! ### Claim C4 -/

/-- C4: for a cooldown slot (send and feedback each gate through
`tryAcquire` on their own ref), starting from an expired slot, an attempt at
`now1` is allowed and stamps the slot; a second attempt at `now2` is denied
with the stored timestamp untouched when `now2 - now1 < cooldownMs`, and
allowed with the timestamp restamped when `now2 - now1 >= cooldownMs`. -/
theorem tryAcquire_two_attempts (last0 now1 now2 cd : Int) (h : cd ≤ now1 - last0) :
    tryAcquire last0 now1 cd = (true, now1) ∧
    (now2 - now1 < cd →
      tryAcquire (tryAcquire last0 now1 cd).2 now2 cd = (false, now1)) ∧
    (cd ≤ now2 - now1 →
      tryAcquire (tryAcquire last0 now1 cd).2 now2 cd = (true, now2)) := by
  have h1 := tryAcquire_allow last0 now1 cd h
  refine ⟨h1, fun h2 => ?_, fun h2 => ?_⟩
  · rw [h1]
    exact tryAcquire_deny now1 now2 cd (by omega)
  · rw [h1]
    exact tryAcquire_allow now1 now2 cd h2

/-- C4 witness: both outcomes at concrete times with the 2000 ms cooldown. -/
theorem tryAcquire_two_attempts_witness :
    tryAcquire 0 2000 2000 = (true, 2000) ∧
    tryAcquire (tryAcquire 0 2000 2000).2 3000 2000 = (false, 2000) ∧
    tryAcquire (tryAcquire 0 2000 2000).2 4000 2000 = (true, 4000) := by
  have ha := tryAcquire_two_attempts 0 2000 3000 2000 (by decide)
  have hb := tryAcquire_two_attempts 0 2000 4000 2000 (by decide)
  exact ⟨ha.1, ha.2.1 (by decide), hb.2.2 (by decide)⟩

/-! ### Claim C5 -/

/-- C5 (amended): on a successful send (2xx, body parses), the appended `ai`
message's content is `data.output || data.text || data.message || 'Sorry, I
could not process that request.'` — the first *truthy* field, so a present
but falsy field (such as the empty string) is skipped — with `replyTo` the
optimistic user message's id.  A body that fails to parse takes the failure
path instead, and so does the parseable body `"null"`: `data.output` throws
a TypeError on a null `data`, which the catch block turns into the generic
failure notice. -/
theorem sendMessage_success_spec (cfg : Config) (env : SendEnv) (st : AppState)
    (content body : String) (data : Json)
    (hload : st.isLoading = false)
    (hgate : RATE_LIMIT_MS ≤ env.now - st.lastSend)
    (hurl : cfg.webhookUrl ≠ "")
    (hvalid : (validateInput content).valid = true)
    (hparse : jsonParse body = some data) :
    (∀ reply, extractReply data = some reply →
      sendMessage cfg env (FetchOutcome.response true body) st content =
      ({ st with
         lastSend := env.now, isLoading := false, inputValue := "",
         messages := st.messages ++
           [{ id := env.userMsgId, content := Json.str (validateInput content).sanitized,
              sender := Sender.user, timestamp := env.userMsgTs },
            { id := env.respMsgId, content := reply, sender := Sender.ai,
              timestamp := env.respMsgTs, replyTo := some env.userMsgId }] },
       [NetRequest.sendMsg cfg.webhookUrl env.sessionId env.userMsgId
          (validateInput content).sanitized])) ∧
    (extractReply data = none →
      sendMessage cfg env (FetchOutcome.response true body) st content =
      ({ st with
         lastSend := env.now, isLoading := false, inputValue := "",
         messages := st.messages ++
           [{ id := env.userMsgId, content := Json.str (validateInput content).sanitized,
              sender := Sender.user, timestamp := env.userMsgTs },
            failureNotice env (validateInput content).sanitized false] },
       [NetRequest.sendMsg cfg.webhookUrl env.sessionId env.userMsgId
          (validateInput content).sanitized])) ∧
    extractReply Json.null = none ∧
    (∀ d v, jsField d "output" = some v → truthy v = true → extractReply d = some v) ∧
    (∀ d v, truthyField d "output" = false → jsField d "text" = some v →
      truthy v = true → extractReply d = some v) ∧
    (∀ d v, truthyField d "output" = false → truthyField d "text" = false →
      jsField d "message" = some v → truthy v = true → extractReply d = some v) ∧
    (∀ d, d ≠ Json.null → truthyField d "output" = false → truthyField d "text" = false →
      truthyField d "message" = false →
      extractReply d = some (Json.str "Sorry, I could not process that request.")) ∧
    (∀ b, jsonParse b = none →
      sendMessage cfg env (FetchOutcome.response true b) st content =
      ({ st with
         lastSend := env.now, isLoading := false, inputValue := "",
         messages := st.messages ++
           [{ id := env.userMsgId, content := Json.str (validateInput content).sanitized,
              sender := Sender.user, timestamp := env.userMsgTs },
            failureNotice env (validateInput content).sanitized false] },
       [NetRequest.sendMsg cfg.webhookUrl env.sessionId env.userMsgId
          (validateInput content).sanitized])) := by
  have hacq := tryAcquire_allow st.lastSend env.now RATE_LIMIT_MS hgate
  have hfield : ∀ (d v : Json), jsField d "output" = some v → d ≠ Json.null := by
    intro d v h1
    intro hnull
    rw [hnull] at h1
    simp [jsField] at h1
  refine ⟨fun reply hr => ?_, fun hr => ?_, rfl, fun d v h1 h2 => ?_,
    fun d v h0 h1 h2 => ?_, fun d v h0 h0t h1 h2 => ?_, fun d hd h0 h0t h0m => ?_,
    fun b hb => ?_⟩
  · simp [sendMessage, hload, hacq, hurl, hvalid, hparse, hr]
  · simp [sendMessage, hload, hacq, hurl, hvalid, hparse, hr]
  · have hd := hfield d v h1
    have ht : truthyField d "output" = true := by simp [truthyField, h1, h2]
    rw [extractReply_not_null d hd]
    simp [ht, h1]
  · have hd : d ≠ Json.null := by
      intro hnull
      rw [hnull] at h1
      simp [jsField] at h1
    have ht : truthyField d "text" = true := by simp [truthyField, h1, h2]
    rw [extractReply_not_null d hd]
    simp [h0, ht, h1]
  · have hd : d ≠ Json.null := by
      intro hnull
      rw [hnull] at h1
      simp [jsField] at h1
    have ht : truthyField d "message" = true := by simp [truthyField, h1, h2]
    rw [extractReply_not_null d hd]
    simp [h0, h0t, ht, h1]
  · rw [extractReply_not_null d hd]
    simp [h0, h0t, h0m]
  · simp [sendMessage, hload, hacq, hurl, hvalid, hb]

/-- C5 witness: the success branch at a concrete `{"output":"Hi!"}` body,
and the failure branch at the concrete body `"null"`. -/
theorem sendMessage_success_spec_witness :
    (sendMessage wCfg wEnvS (FetchOutcome.response true "\x7b\"output\":\"Hi!\"\x7d")
        wStateIdle "Hello" =
      ({ wStateIdle with
         lastSend := wEnvS.now, isLoading := false, inputValue := "",
         messages := wStateIdle.messages ++
           [{ id := wEnvS.userMsgId, content := Json.str (validateInput "Hello").sanitized,
              sender := Sender.user, timestamp := wEnvS.userMsgTs },
            { id := wEnvS.respMsgId, content := Json.str "Hi!",
              sender := Sender.ai, timestamp := wEnvS.respMsgTs,
              replyTo := some wEnvS.userMsgId }] },
       [NetRequest.sendMsg wCfg.webhookUrl wEnvS.sessionId wEnvS.userMsgId
          (validateInput "Hello").sanitized])) ∧
    (sendMessage wCfg wEnvS (FetchOutcome.response true "null") wStateIdle "Hello" =
      ({ wStateIdle with
         lastSend := wEnvS.now, isLoading := false, inputValue := "",
         messages := wStateIdle.messages ++
           [{ id := wEnvS.userMsgId, content := Json.str (validateInput "Hello").sanitized,
              sender := Sender.user, timestamp := wEnvS.userMsgTs },
            failureNotice wEnvS (validateInput "Hello").sanitized false] },
       [NetRequest.sendMsg wCfg.webhookUrl wEnvS.sessionId wEnvS.userMsgId
          (validateInput "Hello").sanitized])) :=
  ⟨(sendMessage_success_spec wCfg wEnvS wStateIdle "Hello" "\x7b\"output\":\"Hi!\"\x7d"
      (Json.obj [("output", Json.str "Hi!")]) rfl (by decide) (by decide) rfl rfl).1
      (Json.str "Hi!") rfl,
   (sendMessage_success_spec wCfg wEnvS wStateIdle "Hello" "null"
      Json.null rfl (by decide) (by decide) rfl rfl).2.1 rfl⟩

/-- C5 counterexample: for the 2xx body `{"output":"","text":"hi"}` the
first *present* field is `output` (value `""`), yet the appended reply
carries `"hi"` — the code chains `||`, which skips present-but-falsy
fields, so "first present field" is false as stated. -/
theorem sendMessage_reply_field_cex :
    jsonParse "\x7b\"output\":\"\",\"text\":\"hi\"\x7d" =
      some (Json.obj [("output", Json.str ""), ("text", Json.str "hi")]) ∧
    jsField (Json.obj [("output", Json.str ""), ("text", Json.str "hi")]) "output" =
      some (Json.str "") ∧
    extractReply (Json.obj [("output", Json.str ""), ("text", Json.str "hi")]) =
      some (Json.str "hi") ∧
    (sendMessage wCfg wEnvS
        (FetchOutcome.response true "\x7b\"output\":\"\",\"text\":\"hi\"\x7d")
        wStateIdle "Hello").1.messages.getLast? =
      some { id := wEnvS.respMsgId, content := Json.str "hi", sender := Sender.ai,
             timestamp := wEnvS.respMsgTs, replyTo := some wEnvS.userMsgId } ∧
    Json.str "hi" ≠ Json.str "" := by
  refine ⟨rfl, rfl, rfl, rfl, ?_⟩
  intro hcontra
  injection hcontra with h2
  exact absurd h2 (by decide)

/-! ### Claim C6 -/

/-- C6: a thumbs-down that passes the feedback rate gate appends the fixed
support-contact system `ai` message unconditionally — the result does not
depend on how the best-effort webhook POST resolves (its `catch` is empty),
no transcript entry records a delivery failure, and the optimistically
recorded vote stays in the feedback map. -/
theorem handleFeedback_down_spec (cfg : Config) (env : FeedbackEnv) (st : AppState)
    (messageId : String)
    (hgate : RATE_LIMIT_MS ≤ env.now - st.lastFeedback) :
    (∀ ok : Bool, (handleFeedback cfg env ok st messageId FeedbackType.down).1 =
      { st with
        lastFeedback := env.now,
        feedback := setFeedbackEntry st.feedback messageId FeedbackType.down,
        messages := st.messages ++ [supportMessage env] }) ∧
    (∀ ok1 ok2 : Bool,
      handleFeedback cfg env ok1 st messageId FeedbackType.down =
        handleFeedback cfg env ok2 st messageId FeedbackType.down) ∧
    (∀ ok : Bool,
      lookupFeedback (handleFeedback cfg env ok st messageId FeedbackType.down).1.feedback
        messageId = some FeedbackType.down) := by
  have hacq := tryAcquire_allow st.lastFeedback env.now RATE_LIMIT_MS hgate
  have hst : ∀ ok : Bool, (handleFeedback cfg env ok st messageId FeedbackType.down).1 =
      { st with
        lastFeedback := env.now,
        feedback := setFeedbackEntry st.feedback messageId FeedbackType.down,
        messages := st.messages ++ [supportMessage env] } := by
    intro ok
    simp [handleFeedback, hacq]
  refine ⟨hst, fun _ _ => rfl, fun ok => ?_⟩
  rw [hst ok]
  exact lookupFeedback_set st.feedback messageId FeedbackType.down

/-- C6 witness: a concrete thumbs-down with a failing webhook POST. -/
theorem handleFeedback_down_spec_witness :
    (handleFeedback wCfg wEnvF false wStateIdle "a1" FeedbackType.down).1 =
      { wStateIdle with
        lastFeedback := wEnvF.now,
        feedback := setFeedbackEntry wStateIdle.feedback "a1" FeedbackType.down,
        messages := wStateIdle.messages ++ [supportMessage wEnvF] } :=
  (handleFeedback_down_spec wCfg wEnvF wStateIdle "a1" (by decide)).1 false

/-! ### Claim C7 -/

/-- C7: with no webhook URL configured, a send that passes the loading and
cooldown guards appends exactly one system error message ("Chat is not
configured. No webhook URL found."), issues no network request, and appends
no user message — for every input text and every would-be fetch outcome. -/
theorem sendMessage_no_webhook_spec (cfg : Config) (env : SendEnv) (outcome : FetchOutcome)
    (st : AppState) (content : String)
    (hload : st.isLoading = false)
    (hgate : RATE_LIMIT_MS ≤ env.now - st.lastSend)
    (hurl : cfg.webhookUrl = "") :
    sendMessage cfg env outcome st content =
      ({ st with
         lastSend := env.now,
         messages := st.messages ++ [configErrorMessage env] }, []) := by
  have hacq := tryAcquire_allow st.lastSend env.now RATE_LIMIT_MS hgate
  simp [sendMessage, hload, hacq, hurl]

/-- C7 witness: a concrete valid send against the empty webhook URL. -/
theorem sendMessage_no_webhook_spec_witness :
    sendMessage wCfgNoUrl wEnvS FetchOutcome.networkFailure wStateIdle "Hello" =
      ({ wStateIdle with
         lastSend := wEnvS.now,
         messages := wStateIdle.messages ++ [configErrorMessage wEnvS] }, []) :=
  sendMessage_no_webhook_spec wCfgNoUrl wEnvS FetchOutcome.networkFailure wStateIdle "Hello"
    rfl (by decide) rfl

/-! ### Claim C8 -/

/-- C8 counterexample: `?borderRadius=abc` — `parseInt('abc', 10)` is `NaN`,
which the code stores as-is, so the field is *not* `null` (the later
`config.borderRadius !== null` styling guard treats it as a value); an
unparseable value does not degrade to the default/null. -/
theorem getConfig_borderRadius_cex :
    (getConfig (fun k => if k = "borderRadius" then some "abc" else none) "").borderRadius =
      JsNumberOrNull.nan ∧
    JsNumberOrNull.nan ≠ JsNumberOrNull.null := ⟨rfl, by decide⟩

/-- C8 (amended): the `borderRadius` parameter is parsed with
`parseInt(v, 10)`; absent (or empty, which is falsy) gives `null` ("do not
override"); no error is ever raised, but a wholly unparseable value yields
`NaN` — not null — while a parseable one yields its integer. -/
theorem getConfig_borderRadius_amended (params : String → Option String) (envUrl : String) :
    (params "borderRadius" = none →
      (getConfig params envUrl).borderRadius = JsNumberOrNull.null) ∧
    (params "borderRadius" = some "" →
      (getConfig params envUrl).borderRadius = JsNumberOrNull.null) ∧
    (∀ v, params "borderRadius" = some v → v ≠ "" → jsParseInt10 v = none →
      (getConfig params envUrl).borderRadius = JsNumberOrNull.nan) ∧
    (∀ v n, params "borderRadius" = some v → v ≠ "" → jsParseInt10 v = some n →
      (getConfig params envUrl).borderRadius = JsNumberOrNull.int n) := by
  refine ⟨fun h => ?_, fun h => ?_, fun v h hne hp => ?_, fun v n h hne hp => ?_⟩
  · simp [getConfig, h]
  · simp [getConfig, h]
  · simp [getConfig, h, hne, hp]
  · simp [getConfig, h, hne, hp]

/-- C8 witness: the absent and the parseable cases at concrete params. -/
theorem getConfig_borderRadius_amended_witness :
    (getConfig (fun _ => none) "").borderRadius = JsNumberOrNull.null ∧
    (getConfig (fun k => if k = "borderRadius" then some "12" else none) "").borderRadius =
      JsNumberOrNull.int 12 := by
  have h1 := (getConfig_borderRadius_amended (fun _ => none) "").1 rfl
  have h2 := (getConfig_borderRadius_amended
    (fun k => if k = "borderRadius" then some "12" else none) "").2.2.2 "12" 12
    (by decide) (by decide) (by decide)
  exact ⟨h1, h2⟩

/-! ### Claim C9 -/

/-- C9 counterexample: the loaders never throw, but they do not always
return a collection of the advertised shape — the stored value is handed
back untyped, so `loadMessages` on the valid-JSON entry `"5"` returns the
number 5 (not an array), and `loadFeedback` on `"[]"` returns an array (not
a map). -/
theorem loadState_shape_cex :
    loadMessages (some "5") = Json.num "5" ∧
    Json.isArr (Json.num "5") = false ∧
    loadFeedback (some "[]") = Json.arr [] ∧
    Json.isObj (Json.arr []) = false := ⟨rfl, rfl, rfl, rfl⟩

/-- C9 (amended): loading persisted state never throws; an absent entry, an
empty entry, or a string `JSON.parse` rejects yields the empty array
(messages) / empty map (feedback); any other stored string yields whatever
value it parses to, unvalidated. -/
theorem loadState_amended :
    loadMessages none = Json.arr [] ∧
    loadMessages (some "") = Json.arr [] ∧
    (∀ s, jsonParse s = none → loadMessages (some s) = Json.arr []) ∧
    (∀ s v, s ≠ "" → jsonParse s = some v → loadMessages (some s) = v) ∧
    loadFeedback none = Json.obj [] ∧
    loadFeedback (some "") = Json.obj [] ∧
    (∀ s, jsonParse s = none → loadFeedback (some s) = Json.obj []) ∧
    (∀ s v, s ≠ "" → jsonParse s = some v → loadFeedback (some s) = v) := by
  refine ⟨rfl, rfl, fun s h => ?_, fun s v hne h => ?_, rfl, rfl, fun s h => ?_,
    fun s v hne h => ?_⟩
  · simp [loadMessages, h]
  · simp [loadMessages, hne, h]
  · simp [loadFeedback, h]
  · simp [loadFeedback, hne, h]

/-- C9 witness: a rejected entry and a parseable entry at concrete strings. -/
theorem loadState_amended_witness :
    loadMessages (some "nope") = Json.arr [] ∧
    loadFeedback (some "\x7b\"m1\":\"up\"\x7d") = Json.obj [("m1", Json.str "up")] :=
  ⟨loadState_amended.2.2.1 "nope" rfl,
   loadState_amended.2.2.2.2.2.2.2 "\x7b\"m1\":\"up\"\x7d"
     (Json.obj [("m1", Json.str "up")]) (by decide) rfl⟩

/-! ### Claim C10 -/

/-- C10: retry is not atomic with the rate gate.  If `handleRetry` runs
while a send is loading or while the send cooldown is still active, the
`[user message, error notice]` pair is removed first and the re-send is then
silently rejected by `sendMessage`'s guards: no request is issued, nothing
is appended, and the removal is not rolled back. -/
theorem handleRetry_blocked_spec (cfg : Config) (env : SendEnv) (outcome : FetchOutcome)
    (st : AppState) (errorMsgId originalInput : String)
    (hblock : st.isLoading = true ∨ env.now - st.lastSend < RATE_LIMIT_MS) :
    handleRetry cfg env outcome st errorMsgId originalInput =
      ({ st with messages := removeRetryPair st.messages errorMsgId }, []) ∧
    (∀ i : Nat, jsFindIndex (fun m => m.id == errorMsgId) st.messages = (i : Int) + 1 →
      (handleRetry cfg env outcome st errorMsgId originalInput).1.messages =
        st.messages.take i ++ st.messages.drop (i + 2)) := by
  have hmain : handleRetry cfg env outcome st errorMsgId originalInput =
      ({ st with messages := removeRetryPair st.messages errorMsgId }, []) := by
    unfold handleRetry
    by_cases hl : st.isLoading = true
    · simp [sendMessage, hl]
    · rcases hblock with hl2 | hr
      · exact absurd hl2 hl
      · simp [sendMessage, hl, tryAcquire_deny _ _ _ hr]
  refine ⟨hmain, fun i h => ?_⟩
  rw [hmain]
  exact removeRetryPair_at st.messages errorMsgId i h

/-- C10 witness: a loading widget; the concrete retry erases the pair and
re-sends nothing. -/
theorem handleRetry_blocked_spec_witness :
    handleRetry wCfg wEnvB FetchOutcome.networkFailure wStateBusy "e1" "Hello" =
      ({ wStateBusy with messages := [] }, []) := by
  have h := (handleRetry_blocked_spec wCfg wEnvB FetchOutcome.networkFailure wStateBusy
    "e1" "Hello" (Or.inl rfl)).1
  exact h
